import Mathlib

/-!
Verification development for the rowing-app repository: a shallow embedding
in Lean 4 of the record model (`models.py`), the SQLite store and sync engine
(`database.py`), the paginated/retrying API client (`api_client.py`) and the
analytics pipeline (`analytics.py`), together with theorems settling the
behavioural claims about those components.

Modelling conventions:
  - Machine integers are `Int`/`Nat`; Python floats are idealised as exact
    rationals `ℚ` (the float operations the claims mention are divisions and
    sums of small integers).
  - SQLite TEXT comparison (memcmp byte order) is modelled by lexicographic
    comparison of the character list; all dates in play are plain ASCII, where
    the two orders agree.
  - A SQLite connection's uncommitted transaction is modelled explicitly: a
    pending copy of the store that becomes durable only at `commit`, and is
    discarded when an exception interrupts the operation sequence.
  - Fallible Python code (raised exceptions) is modelled with `Except String`.
-/

namespace RowingApp

/-! ## Record model (`models.py`) -/

/-- Heart-rate block of a workout (`models.HeartRate`); every field optional. -/
structure HeartRate where
  average : Option Int := none
  min : Option Int := none
  max : Option Int := none
  ending : Option Int := none
  recovery : Option Int := none
  rest : Option Int := none
deriving DecidableEq, Repr

/-- One workout record (`models.WorkoutResult`). `time` is in tenths of a
second; `date` is the local wall-clock string. -/
structure WorkoutResult where
  id : Int
  user_id : Int
  date : String
  timezone : Option String := none
  date_utc : Option String := none
  distance : Int
  type : String
  time : Int
  time_formatted : Option String := none
  workout_type : Option String := none
  source : Option String := none
  weight_class : Option String := none
  verified : Option Bool := none
  ranked : Option Bool := none
  comments : Option String := none
  privacy : Option String := none
  stroke_rate : Option Int := none
  stroke_count : Option Int := none
  calories_total : Option Int := none
  drag_factor : Option Int := none
  heart_rate : Option HeartRate := none
  rest_time : Option Int := none
  rest_distance : Option Int := none
deriving DecidableEq, Repr

/-- `WorkoutResult.time_seconds`: time converted from tenths of a second to
seconds (`self.time / 10.0`, idealised over `ℚ`). -/
def WorkoutResult.time_seconds (r : WorkoutResult) : ℚ := (r.time : ℚ) / 10

/-- `WorkoutResult.pace_per_500m`: pace per 500 m in seconds.  The source
guard is `if self.distance and self.distance > 0`, i.e. the distance must be
truthy (nonzero) and positive; otherwise the property is `None`. -/
def WorkoutResult.pace_per_500m (r : WorkoutResult) : Option ℚ :=
  if r.distance ≠ 0 ∧ r.distance > 0 then
    some (r.time_seconds / (r.distance : ℚ) * 500)
  else
    none

/-! ## Byte-order string comparison (SQLite TEXT ordering) -/

/-- Lexicographic order on character lists; models memcmp order on the ASCII
date strings the store compares. -/
def charListLe : List Char → List Char → Bool
  | [], _ => true
  | _ :: _, [] => false
  | a :: as, b :: bs => if a < b then true else if b < a then false else charListLe as bs

/-- Byte-order comparison of two strings. -/
def strLe (a b : String) : Bool := charListLe a.toList b.toList

/-! ## Local store schema (`database.py`, table `workouts` and `sync_meta`) -/

/-- One row of the `workouts` table, with exactly the 26 columns created by
`init_db`.  `verified`/`ranked` are stored as `INTEGER` (`1`/`0`/`NULL`). -/
structure WorkoutRow where
  id : Int
  user_id : Int
  date : String
  timezone : Option String
  date_utc : Option String
  distance : Int
  type : String
  time : Int
  time_formatted : Option String
  workout_type : Option String
  source : Option String
  weight_class : Option String
  verified : Option Int
  ranked : Option Int
  comments : Option String
  privacy : Option String
  stroke_rate : Option Int
  stroke_count : Option Int
  calories_total : Option Int
  drag_factor : Option Int
  heart_rate_avg : Option Int
  heart_rate_min : Option Int
  heart_rate_max : Option Int
  heart_rate_end : Option Int
  rest_time : Option Int
  rest_distance : Option Int
deriving DecidableEq, Repr

/-- The singleton `sync_meta` row: last successful sync timestamp (modelled
as UTC seconds) and total row count at that time. -/
structure SyncMeta where
  last_sync_utc : Int
  total_rows : Nat
deriving DecidableEq, Repr

/-- The durable store: the `workouts` table plus the optional `sync_meta`
singleton row. -/
structure Store where
  workouts : List WorkoutRow
  sync_meta : Option SyncMeta
deriving DecidableEq, Repr

/-- Python `1 if v else 0 if v is not None else None` applied to a tri-state
boolean (`_upsert_workouts`). -/
def encodeTriBool : Option Bool → Option Int
  | some true => some 1
  | some false => some 0
  | none => none

/-- Row built from a model by `_upsert_workouts` (the tuple at lines 100-127
of `database.py`); heart-rate subfields are `r.heart_rate.X if r.heart_rate
else None`. -/
def workoutToRow (r : WorkoutResult) : WorkoutRow where
  id := r.id
  user_id := r.user_id
  date := r.date
  timezone := r.timezone
  date_utc := r.date_utc
  distance := r.distance
  type := r.type
  time := r.time
  time_formatted := r.time_formatted
  workout_type := r.workout_type
  source := r.source
  weight_class := r.weight_class
  verified := encodeTriBool r.verified
  ranked := encodeTriBool r.ranked
  comments := r.comments
  privacy := r.privacy
  stroke_rate := r.stroke_rate
  stroke_count := r.stroke_count
  calories_total := r.calories_total
  drag_factor := r.drag_factor
  heart_rate_avg := r.heart_rate.bind (·.average)
  heart_rate_min := r.heart_rate.bind (·.min)
  heart_rate_max := r.heart_rate.bind (·.max)
  heart_rate_end := r.heart_rate.bind (·.ending)
  rest_time := r.rest_time
  rest_distance := r.rest_distance

/-- SQLite `INSERT OR REPLACE` keyed on the `INTEGER PRIMARY KEY id`: any
existing row with the same id is deleted and the new row inserted. -/
def insertOrReplace (t : List WorkoutRow) (row : WorkoutRow) : List WorkoutRow :=
  (t.filter (fun r => r.id ≠ row.id)) ++ [row]

/-- `_upsert_workouts`: insert-or-replace each result's row; returns the new
table and the count of rows written (`len(rows)`); no-op returning 0 on empty
input. -/
def upsert_workouts (t : List WorkoutRow) (results : List WorkoutResult) :
    List WorkoutRow × Nat :=
  if results.isEmpty then (t, 0)
  else (results.foldl (fun acc r => insertOrReplace acc (workoutToRow r)) t,
        results.length)

/-! ## Store read helpers (`database.py`) -/

/-- `SYNC_INTERVAL = timedelta(hours=24)`, in seconds. -/
def SYNC_INTERVAL : Int := 24 * 3600

/-- `get_last_sync`: the `last_sync_utc` of the singleton meta row, or `None`. -/
def get_last_sync (st : Store) : Option Int := st.sync_meta.map (·.last_sync_utc)

/-- `needs_sync`: `True` when never synced, else `elapsed >= SYNC_INTERVAL`
for `elapsed = now - last`. -/
def needs_sync (now : Int) (st : Store) : Bool :=
  match get_last_sync st with
  | none => true
  | some last => SYNC_INTERVAL ≤ now - last

/-- A row whose `date` is maximal in byte order (`SELECT date FROM workouts
ORDER BY date DESC LIMIT 1`). -/
def maxDateRow (t : List WorkoutRow) : Option WorkoutRow :=
  t.foldl
    (fun acc r =>
      match acc with
      | none => some r
      | some m => if strLe m.date r.date then some r else some m)
    none

/-- `get_latest_workout_date`: the maximal stored date truncated to its first
10 characters (`row["date"][:10]`, i.e. YYYY-MM-DD), or `None` on an empty
table. -/
def get_latest_workout_date (st : Store) : Option String :=
  (maxDateRow st.workouts).map (fun r => r.date.take 10)

/-- `get_workout_count`: `SELECT COUNT(*) FROM workouts`. -/
def get_workout_count (st : Store) : Nat := st.workouts.length

/-! ## Loading rows back as models (`load_workouts_as_models`) -/

/-- Python `bool(x)` on a stored `INTEGER` column when it is not `NULL`. -/
def decodeTriBool : Option Int → Option Bool
  | none => none
  | some v => some (v ≠ 0)

/-- Model rebuilt from a row by `load_workouts_as_models` (lines 230-266 of
`database.py`): a `HeartRate` block is built only when at least one of the
four stored heart-rate columns is non-NULL, and its `recovery`/`rest` fields
are never populated from the store. -/
def rowToWorkout (row : WorkoutRow) : WorkoutResult where
  id := row.id
  user_id := row.user_id
  date := row.date
  timezone := row.timezone
  date_utc := row.date_utc
  distance := row.distance
  type := row.type
  time := row.time
  time_formatted := row.time_formatted
  workout_type := row.workout_type
  source := row.source
  weight_class := row.weight_class
  verified := decodeTriBool row.verified
  ranked := decodeTriBool row.ranked
  comments := row.comments
  privacy := row.privacy
  stroke_rate := row.stroke_rate
  stroke_count := row.stroke_count
  calories_total := row.calories_total
  drag_factor := row.drag_factor
  heart_rate :=
    if row.heart_rate_avg.isSome || row.heart_rate_min.isSome ||
       row.heart_rate_max.isSome || row.heart_rate_end.isSome then
      some { average := row.heart_rate_avg, min := row.heart_rate_min,
             max := row.heart_rate_max, ending := row.heart_rate_end }
    else
      none
  rest_time := row.rest_time
  rest_distance := row.rest_distance

/-- Date filter of `load_workouts_as_models`: `date >= from_date` and
`date <= to_date + " 23:59:59"` when the bounds are given. -/
def rowInDateRange (from_date to_date : Option String) (row : WorkoutRow) : Bool :=
  (match from_date with
   | none => true
   | some f => strLe f row.date) &&
  (match to_date with
   | none => true
   | some t => strLe row.date (t ++ " 23:59:59"))

/-- Order used by `ORDER BY date ASC`: byte order on `date`; equal dates are
returned in rowid order, and the rowid of an `INTEGER PRIMARY KEY` table is
the `id` column. -/
def rowLoadLe (a b : WorkoutRow) : Prop :=
  (strLe a.date b.date ∧ a.date ≠ b.date) ∨ (a.date = b.date ∧ a.id ≤ b.id)

instance : DecidableRel rowLoadLe := fun a b => by
  unfold rowLoadLe; infer_instance

/-- `load_workouts_as_models`: filter by the optional date range, order by
date ascending, and rebuild each row as a model. -/
def load_workouts_as_models (st : Store)
    (from_date : Option String := none) (to_date : Option String := none) :
    List WorkoutResult :=
  ((st.workouts.filter (rowInDateRange from_date to_date)).insertionSort
      rowLoadLe).map rowToWorkout

/-! ## Sync engine (`sync_workouts`) -/

/-- Query filters passed to `Concept2Client.get_all_results` by the sync
engine. -/
structure FetchRequest where
  from_date : Option String := none
  to_date : Option String := none
  workout_type : Option String := none
deriving DecidableEq, Repr

/-- Fetch scope chosen by `sync_workouts` once a sync is due (lines 300-314
of `database.py`): full history when the store is empty, otherwise from the
locally-known latest workout date (not latest + 1 day). -/
def syncFetchRequest (st : Store) : FetchRequest :=
  match get_latest_workout_date st with
  | none => { workout_type := some "rower" }
  | some latest => { from_date := some latest, workout_type := some "rower" }

/-- Server-side admission of a record date by the `from` filter of the
results endpoint, documented as an inclusive YYYY-MM-DD start bound: a record
whose day is `day` is returned when `from_date <= day`. -/
def fromFilterAdmits (req : FetchRequest) (day : String) : Bool :=
  match req.from_date with
  | none => true
  | some f => strLe f day

/-- One statement executed on the open connection during the write phase of a
sync cycle. -/
inductive DbOp where
  | upsertBatch (results : List WorkoutResult)
  | updateMeta (now : Int)
  | commit
deriving DecidableEq, Repr

/-- Effect of one statement on the connection's uncommitted (pending) view of
the store.  `_update_sync_meta` reads `COUNT(*)` through the same connection,
so it sees the pending upsert. -/
def applyOp (pending : Store) : DbOp → Store
  | .upsertBatch results =>
      { pending with workouts := (upsert_workouts pending.workouts results).1 }
  | .updateMeta now =>
      { pending with sync_meta := some ⟨now, pending.workouts.length⟩ }
  | .commit => pending

/-- Run a statement sequence on a connection.  `durable` is the committed
store, `pending` the connection's transactional view.  `failAt = some k`
means statement `k` (0-based) raises: execution stops there and the
uncommitted changes are discarded (the transaction is rolled back when the
connection is dropped), leaving the durable store as it was at the last
commit. -/
def runOps (durable pending : Store) : List DbOp → Option Nat → Store
  | [], _ => durable
  | _ :: _, some 0 => durable
  | op :: ops, failAt =>
      let failAt' := failAt.map (· - 1)
      match op with
      | .commit => runOps pending pending ops failAt'
      | _ => runOps durable (applyOp pending op) ops failAt'

/-- The write phase of one sync cycle: upsert the fetched batch, update the
meta row, then commit (lines 317-320 of `database.py`). -/
def syncOps (results : List WorkoutResult) (now : Int) : List DbOp :=
  [.upsertBatch results, .updateMeta now, .commit]

/-- Return payload of `sync_workouts`. -/
structure SyncResult where
  synced : Bool
  new_workouts : Nat
  total_workouts : Nat
  last_sync : Option Int
deriving DecidableEq, Repr

/-- One sync cycle (`sync_workouts`).  The remote interaction is summarised
by `fetchResult`: `.error` for a fetch failure or malformed payload raised
inside `get_all_results`, `.ok results` for a successful drain.  A store
write failure is summarised by `writeFailAt`, the index of the statement of
`syncOps` that raises (`none` when the write phase succeeds).  The function
returns the durable store after the cycle together with the outcome. -/
def sync_workouts (st : Store) (now : Int)
    (fetchResult : Except String (List WorkoutResult))
    (writeFailAt : Option (Fin 3)) :
    Store × Except String SyncResult :=
  if needs_sync now st = false then
    (st, .ok { synced := false, new_workouts := 0,
               total_workouts := get_workout_count st,
               last_sync := get_last_sync st })
  else
    match fetchResult with
    | .error e => (st, .error e)
    | .ok results =>
        match writeFailAt with
        | some k =>
            (runOps st st (syncOps results now) (some k.val), .error "StoreWriteError")
        | none =>
            let st' := runOps st st (syncOps results now) none
            (st', .ok { synced := true,
                        new_workouts := (upsert_workouts st.workouts results).2,
                        total_workouts := get_workout_count st',
                        last_sync := get_last_sync st' })

/-! ## API client (`api_client.py`) -/

/-- Pagination block of a results response (`models.Pagination`). -/
structure Pagination where
  total : Nat
  count : Nat
  per_page : Nat
  current_page : Nat
  total_pages : Nat
deriving DecidableEq, Repr

/-- `models.PaginationMeta`: wrapper holding the pagination block. -/
structure PaginationMeta where
  pagination : Pagination
deriving DecidableEq, Repr

/-- `models.ResultsResponse`: one page of results plus optional pagination
metadata. -/
structure ResultsResponse where
  data : List WorkoutResult
  meta : Option PaginationMeta
deriving DecidableEq, Repr

/-- `Concept2Client.get_all_results`, fuelled.  `server p` is the
already-parsed response the remote returns for requested page `p` (the
per-request retry layer is modelled separately).  The loop body extends the
accumulated list with the page's data, then continues with `page + 1` while
`response.meta` is present and `page < response.meta.pagination.total_pages`;
otherwise it stops.  `none` means the fuel ran out, i.e. the stop condition
was not reached within `fuel` iterations. -/
def get_all_results (server : Nat → ResultsResponse) :
    Nat → Nat → Option (List WorkoutResult)
  | _, 0 => none
  | page, fuel + 1 =>
      match (server page).meta with
      | some m =>
          if page < m.pagination.total_pages then
            (get_all_results server (page + 1) fuel).map ((server page).data ++ ·)
          else
            some (server page).data
      | none => some (server page).data

/-- Stop condition of the `get_all_results` loop at requested page `p`:
metadata absent, or the local page counter has reached the reported
`total_pages`. -/
def stopsAt (server : Nat → ResultsResponse) (p : Nat) : Bool :=
  match (server p).meta with
  | none => true
  | some m => !(p < m.pagination.total_pages)

/-- Modelled from the spec's words, for comparison with `get_all_results`:
a drain loop that stops exactly when the REPORTED `current_page` equals
`total_pages`, or pagination metadata is absent. -/
def get_all_results_specStop (server : Nat → ResultsResponse) :
    Nat → Nat → Option (List WorkoutResult)
  | _, 0 => none
  | page, fuel + 1 =>
      match (server page).meta with
      | none => some (server page).data
      | some m =>
          if m.pagination.current_page = m.pagination.total_pages then
            some (server page).data
          else
            (get_all_results_specStop server (page + 1) fuel).map ((server page).data ++ ·)

/-- Failure of one HTTP attempt inside `get_results`. -/
inductive HttpFailure where
  | network
  | timeout
  | status (code : Nat)
deriving DecidableEq, Repr

/-- Backoff wait produced by `wait_exponential(min=1, max=10)` after the
`n`-th failed attempt (1-based): tenacity computes
`multiplier * exp_base ** (attempt_number - 1)` and clamps it into
`[min, max]`, with `multiplier = 1` and `exp_base = 2` (the wait is computed
before the attempt counter advances, so the first wait uses exponent 0). -/
def wait_exponential (mn mx n : Nat) : Nat :=
  Nat.max (Nat.max 0 mn) (Nat.min (2 ^ (n - 1)) mx)

/-- The `@retry(stop=stop_after_attempt(3), wait=wait_exponential(min=1,
max=10))` wrapper around one page request.  `attempts n` is the outcome of
the `n`-th HTTP attempt (1-based).  tenacity's default retry predicate
retries on ANY raised exception; `stop_after_attempt(3)` permits
`remaining + 1` calls where `get_results_retry` starts with `remaining = 2`.
Returns the final outcome and the list of backoff waits performed. -/
def retryRun (attempts : Nat → Except HttpFailure ResultsResponse) :
    Nat → Nat → Except HttpFailure ResultsResponse × List Nat
  | n, 0 => (attempts n, [])
  | n, remaining + 1 =>
      match attempts n with
      | .ok v => (.ok v, [])
      | .error _ =>
          let rest := retryRun attempts (n + 1) remaining
          (rest.1, wait_exponential 1 10 n :: rest.2)

/-- One page request as issued by `get_results`: up to 3 attempts. -/
def get_results_retry (attempts : Nat → Except HttpFailure ResultsResponse) :
    Except HttpFailure ResultsResponse × List Nat :=
  retryRun attempts 1 2

/-- Number of HTTP attempts actually performed by a retry run: one more than
the number of waits. -/
def attemptsMade (run : Except HttpFailure ResultsResponse × List Nat) : Nat :=
  run.2.length + 1

/-- Modelled from the spec's words, for comparison with `get_results_retry`:
a failure is transient when it is a network error, a timeout, or a 5xx
response; everything else (4xx included) is non-retryable. -/
def isTransient : HttpFailure → Bool
  | .network => true
  | .timeout => true
  | .status code => 500 ≤ code && code < 600

/-- Modelled from the spec's words: the same bounded retry loop, but retrying
only transient failures — a non-retryable failure propagates immediately. -/
def retryRunSpec (attempts : Nat → Except HttpFailure ResultsResponse) :
    Nat → Nat → Except HttpFailure ResultsResponse × List Nat
  | n, 0 => (attempts n, [])
  | n, remaining + 1 =>
      match attempts n with
      | .ok v => (.ok v, [])
      | .error e =>
          if isTransient e then
            let rest := retryRunSpec attempts (n + 1) remaining
            (rest.1, wait_exponential 1 10 n :: rest.2)
          else
            (.error e, [])

/-! ## Calendar arithmetic (proleptic Gregorian / ISO 8601)

The Python code delegates date handling to `datetime`/`pandas`; the model
implements the same documented calendar semantics.  A date is a day number:
days elapsed since 1970-01-01. -/

/-- Day number of a civil date (standard days-from-civil algorithm, valid for
years from 1970 on, which covers every date the claims touch). -/
def daysFromCivil (y m d : Nat) : Nat :=
  let y' := if m ≤ 2 then y - 1 else y
  let era := y' / 400
  let yoe := y' - era * 400
  let mp := if 2 < m then m - 3 else m + 9
  let doy := (153 * mp + 2) / 5 + d - 1
  let doe := yoe * 365 + yoe / 4 - yoe / 100 + doy
  era * 146097 + doe - 719468

/-- Civil date `(year, month, day)` of a day number (inverse of
`daysFromCivil` on its range). -/
def civilFromDays (z : Nat) : Nat × Nat × Nat :=
  let z' := z + 719468
  let era := z' / 146097
  let doe := z' % 146097
  let yoe := (doe - doe / 1460 + doe / 36524 - doe / 146097) / 365
  let y := yoe + era * 400
  let doy := doe - (365 * yoe + yoe / 4 - yoe / 100)
  let mp := (5 * doy + 2) / 153
  let d := doy - (153 * mp + 2) / 5 + 1
  let m := if mp < 10 then mp + 3 else mp - 9
  (if m ≤ 2 then y + 1 else y, m, d)

/-- ISO weekday of a day number: Monday = 1 .. Sunday = 7 (1970-01-01 was a
Thursday). -/
def isoWeekday (day : Nat) : Nat := (day + 3) % 7 + 1

/-- The Thursday of the ISO week containing `day`. -/
def isoThursdayOf (day : Nat) : Nat := day + 4 - isoWeekday day

/-- ISO year of a day number: the calendar year of its week's Thursday. -/
def isoYear (day : Nat) : Nat := (civilFromDays (isoThursdayOf day)).1

/-- ISO week number of a day number. -/
def isoWeek (day : Nat) : Nat :=
  (isoThursdayOf day - daysFromCivil (isoYear day) 1 1) / 7 + 1

/-- Zero-padding to two digits (`str.zfill(2)` / `%02d`). -/
def zfill2 (n : Nat) : String := if n < 10 then "0" ++ toString n else toString n

/-- The `YYYY-Www` label built by `weekly_volume` and
`training_heatmap_data`. -/
def isoWeekLabel (day : Nat) : String :=
  toString (isoYear day) ++ "-W" ++ zfill2 (isoWeek day)

/-- The `YYYY-MM` month label built by `monthly_volume`
(`dt.to_period("M").astype(str)`). -/
def monthLabel (day : Nat) : String :=
  let c := civilFromDays day
  toString c.1 ++ "-" ++ zfill2 c.2.1

/-- `strftime("%Y-%m-%d")`. -/
def formatDay (day : Nat) : String :=
  let c := civilFromDays day
  toString c.1 ++ "-" ++ zfill2 c.2.1 ++ "-" ++ zfill2 c.2.2

/-- Abbreviated month name (`%b`). -/
def monthAbbrev : Nat → String
  | 1 => "Jan" | 2 => "Feb" | 3 => "Mar" | 4 => "Apr" | 5 => "May" | 6 => "Jun"
  | 7 => "Jul" | 8 => "Aug" | 9 => "Sep" | 10 => "Oct" | 11 => "Nov" | 12 => "Dec"
  | _ => "?"

/-- `strftime("%d %b %Y")` (the dashboard display format). -/
def formatDayDisplay (day : Nat) : String :=
  let c := civilFromDays day
  zfill2 c.2.2 ++ " " ++ monthAbbrev c.2.1 ++ " " ++ toString c.1

/-- Numeric value of a digit string. -/
def digitsVal (cs : List Char) : Nat :=
  cs.foldl (fun n c => n * 10 + (c.toNat - 48)) 0

/-- A Python `datetime`: day number plus second of day. -/
structure PyDateTime where
  day : Nat
  sec : Nat
deriving DecidableEq, Repr

/-- `WorkoutResult.date_parsed`: parse `YYYY-MM-DD HH:MM:SS`, falling back to
the plain `YYYY-MM-DD` prefix (the source tries both formats and finally the
first 10 characters). -/
def WorkoutResult.date_parsed (r : WorkoutResult) : PyDateTime :=
  let cs := r.date.toList
  { day := daysFromCivil (digitsVal (cs.take 4)) (digitsVal ((cs.drop 5).take 2))
      (digitsVal ((cs.drop 8).take 2)),
    sec :=
      if 19 ≤ cs.length then
        digitsVal ((cs.drop 11).take 2) * 3600 + digitsVal ((cs.drop 14).take 2) * 60 +
          digitsVal ((cs.drop 17).take 2)
      else 0 }

/-! ## Analytics pipeline (`analytics.py`) -/

/-- One row of the analytics DataFrame, with the 13 columns built by
`results_to_dataframe`.  A pandas `NaN` cell is `none`. -/
structure DfRow where
  id : Int
  date : PyDateTime
  distance_m : Int
  time_seconds : ℚ
  type : String
  workout_type : Option String
  pace_500m : Option ℚ
  stroke_rate : Option Int
  calories : Option Int
  heart_rate_avg : Option Int
  drag_factor : Option Int
  weight_class : Option String
  verified : Option Bool
deriving DecidableEq, Repr

/-- A pandas DataFrame as the analytics code observes it: its rows plus
whether the workout columns exist at all.  `pd.DataFrame([])` — the frame
built from an empty record list — has NO columns, so selecting a column from
it raises `KeyError`. -/
structure DataFrame where
  rows : List DfRow
  hasCols : Bool
deriving DecidableEq, Repr

/-- The record-to-row projection of `results_to_dataframe`. -/
def toDfRow (r : WorkoutResult) : DfRow where
  id := r.id
  date := r.date_parsed
  distance_m := r.distance
  time_seconds := r.time_seconds
  type := r.type
  workout_type := r.workout_type
  pace_500m := r.pace_per_500m
  stroke_rate := r.stroke_rate
  calories := r.calories_total
  heart_rate_avg := r.heart_rate.bind (·.average)
  drag_factor := r.drag_factor
  weight_class := r.weight_class
  verified := r.verified

/-- Chronological order on rows (`sort_values("date")`). -/
def dfDateLe (a b : DfRow) : Prop :=
  a.date.day < b.date.day ∨ (a.date.day = b.date.day ∧ a.date.sec ≤ b.date.sec)

instance : DecidableRel dfDateLe := fun a b => by
  unfold dfDateLe; infer_instance

/-- `results_to_dataframe`: build one row per record and, when non-empty,
sort by date ascending. -/
def results_to_dataframe (results : List WorkoutResult) : DataFrame :=
  let rows := results.map toDfRow
  if rows.isEmpty then { rows := rows, hasCols := !results.isEmpty }
  else { rows := rows.insertionSort dfDateLe, hasCols := !results.isEmpty }

/-- Round half to even (Python `round` / numpy) to `dp` decimal places. -/
def roundHalfEven (x : ℚ) : Int :=
  let f := x.floor
  let frac := x - f
  if frac < 1 / 2 then f
  else if 1 / 2 < frac then f + 1
  else if f % 2 = 0 then f else f + 1

/-- Rounded to `dp` decimal places, as an exact rational. -/
def roundTo (dp : Nat) (x : ℚ) : ℚ :=
  (roundHalfEven (x * 10 ^ dp) : ℚ) / 10 ^ dp

/-- `f"{seconds:04.1f}"`: one decimal place, zero-padded to width 4. -/
def formatSec1 (x : ℚ) : String :=
  let tenths := roundHalfEven (x * 10)
  let ip := tenths / 10
  let fp := tenths % 10
  (if ip < 10 then "0" else "") ++ toString ip ++ "." ++ toString fp

/-- `_format_pace` on a present (non-NaN) value:
`f"{int(p // 60)}:{p % 60:04.1f}"`. -/
def formatPaceQ (p : ℚ) : String :=
  let minutes : Int := (p / 60).floor
  let seconds : ℚ := p - 60 * minutes
  toString minutes ++ ":" ++ formatSec1 seconds

/-- `_format_pace`: "N/A" when the input is `None`/`NaN`. -/
def formatPaceOpt : Option ℚ → String
  | none => "N/A"
  | some q => formatPaceQ q

/-- `_format_time`: `H:MM:SS.T` (hours omitted when zero). -/
def formatTimeQ (total : ℚ) : String :=
  let hours : Int := (total / 3600).floor
  let remaining : ℚ := total - 3600 * hours
  let minutes : Int := (remaining / 60).floor
  let seconds : ℚ := remaining - 60 * minutes
  if 0 < hours then
    toString hours ++ ":" ++ (if minutes < 10 then "0" else "") ++ toString minutes ++
      ":" ++ formatSec1 seconds
  else
    toString minutes ++ ":" ++ formatSec1 seconds

/-- Mean of the present values of a column, `None` when all are absent
(pandas `mean` skips `NaN`). -/
def meanOpt (l : List (Option ℚ)) : Option ℚ :=
  let v := l.filterMap id
  if v.isEmpty then none else some (v.sum / v.length)

/-- Mean of a full column. -/
def meanQ (l : List ℚ) : ℚ := l.sum / l.length

/-- Distinct values of a column in order of first appearance (pandas
`unique`/`groupby` key extraction). -/
def dedupFirst {α : Type} [DecidableEq α] : List α → List α
  | [] => []
  | a :: as => a :: (dedupFirst as).filter (fun x => x ≠ a)

/-- `value_counts().to_dict()` over a column that may hold `NaN`: count each
distinct present value, most frequent first. -/
def valueCounts (l : List (Option String)) : List (String × Nat) :=
  let v := l.filterMap id
  ((dedupFirst v).map (fun s => (s, v.count s))).insertionSort
    (fun a b => b.2 ≤ a.2)

/-- Result shape of `compute_summary`: the empty sentinel is the dict
`{"total_workouts": 0}`; otherwise the full dict is built.  The `"N/A"`
fallbacks of the numeric averages are `none`. -/
inductive SummaryResult where
  | empty
  | full (total_workouts : Nat) (total_distance_km : ℚ) (total_time_hours : ℚ)
      (avg_distance_m : ℚ) (avg_pace_500m : String) (avg_stroke_rate : Option ℚ)
      (avg_calories : Option ℚ) (first_workout : String) (last_workout : String)
      (last_workout_display : String) (days_since_last : Int)
      (workout_type_breakdown : List (String × Nat))
deriving DecidableEq, Repr

/-- Earliest date in a non-empty frame (`df["date"].min()`). -/
def minDate (rows : List DfRow) : PyDateTime :=
  match rows with
  | [] => ⟨0, 0⟩
  | r :: rs => rs.foldl (fun acc x =>
      if x.date.day < acc.day ∨ (x.date.day = acc.day ∧ x.date.sec < acc.sec) then x.date else acc) r.date

/-- Latest date in a non-empty frame (`df["date"].max()`). -/
def maxDate (rows : List DfRow) : PyDateTime :=
  match rows with
  | [] => ⟨0, 0⟩
  | r :: rs => rs.foldl (fun acc x =>
      if acc.day < x.date.day ∨ (acc.day = x.date.day ∧ acc.sec < x.date.sec) then x.date else acc) r.date

/-- `compute_summary`.  `now` models `pd.Timestamp.now()`
(for `days_since_last`). -/
def compute_summary (now : PyDateTime) (df : DataFrame) : SummaryResult :=
  if df.rows.isEmpty then .empty
  else
    let rows := df.rows
    let total_distance_m : ℚ := ((rows.map (·.distance_m)).sum : ℤ)
    let total_time_s : ℚ := (rows.map (·.time_seconds)).sum
    let last := maxDate rows
    .full rows.length
      (roundTo 2 (total_distance_m / 1000))
      (roundTo 2 (total_time_s / 3600))
      (roundTo 0 (meanQ (rows.map (fun r => ((r.distance_m : ℤ) : ℚ)))))
      (if (rows.map (·.pace_500m)).any (·.isSome) then
        formatPaceOpt (meanOpt (rows.map (·.pace_500m)))
      else "N/A")
      (if (rows.map (·.stroke_rate)).any (·.isSome) then
        (meanOpt (rows.map (fun r => r.stroke_rate.map (fun v => ((v : ℤ) : ℚ))))).map
          (roundTo 1)
      else none)
      (if (rows.map (·.calories)).any (·.isSome) then
        (meanOpt (rows.map (fun r => r.calories.map (fun v => ((v : ℤ) : ℚ))))).map
          (roundTo 0)
      else none)
      (formatDay (minDate rows).day)
      (formatDay last.day)
      (formatDayDisplay last.day)
      (Int.fdiv ((now.day * 86400 + now.sec : Nat) - (last.day * 86400 + last.sec : Nat) : Int) 86400)
      (valueCounts (rows.map (·.workout_type)))

/-- One output row of `monthly_volume`. -/
structure MonthlyRow where
  month : String
  total_distance_km : ℚ
  total_time_hours : ℚ
  workouts : Nat
  avg_pace_500m : Option ℚ
deriving DecidableEq, Repr

/-- Byte order on strings as a `Prop`, for sorting group keys. -/
def strLeP (a b : String) : Prop := strLe a b = true

instance : DecidableRel strLeP := fun a b => by
  unfold strLeP; infer_instance

/-- `monthly_volume`: empty frame in, empty frame out; otherwise group by
month label (groupby sorts its keys ascending) and aggregate. -/
def monthly_volume (df : DataFrame) : Except String (List MonthlyRow) :=
  if df.rows.isEmpty then .ok []
  else if !df.hasCols then .error "KeyError: date"
  else
    let keys := (dedupFirst (df.rows.map (fun r => monthLabel r.date.day))).insertionSort strLeP
    .ok (keys.map (fun k =>
      let grp := df.rows.filter (fun r => monthLabel r.date.day = k)
      { month := k,
        total_distance_km := roundTo 2 ((((grp.map (·.distance_m)).sum : ℤ) : ℚ) / 1000),
        total_time_hours := roundTo 2 ((grp.map (·.time_seconds)).sum / 3600),
        workouts := grp.length,
        avg_pace_500m := meanOpt (grp.map (·.pace_500m)) }))

/-- One output row of `weekly_volume`. -/
structure WeeklyRow where
  year_week : String
  total_distance_km : ℚ
  workouts : Nat
deriving DecidableEq, Repr

/-- `weekly_volume`: empty frame in, empty frame out; otherwise group by the
`YYYY-Www` ISO label and aggregate. -/
def weekly_volume (df : DataFrame) : Except String (List WeeklyRow) :=
  if df.rows.isEmpty then .ok []
  else if !df.hasCols then .error "KeyError: date"
  else
    let keys := (dedupFirst (df.rows.map (fun r => isoWeekLabel r.date.day))).insertionSort strLeP
    .ok (keys.map (fun k =>
      let grp := df.rows.filter (fun r => isoWeekLabel r.date.day = k)
      { year_week := k,
        total_distance_km := roundTo 2 ((((grp.map (·.distance_m)).sum : ℤ) : ℚ) / 1000),
        workouts := grp.length }))

/-- One personal-best entry. -/
structure PBEntry where
  time : String
  pace : String
  date : String
deriving DecidableEq, Repr

/-- The benchmark distances of `personal_bests`. -/
def standard_distances : List Int := [2000, 5000, 6000, 10000, 21097, 42195]

/-- First row attaining the minimal `time_seconds` (`idxmin` returns the
first index of the minimum). -/
def minTimeRow : List DfRow → Option DfRow
  | [] => none
  | r :: rs => some (rs.foldl (fun best x =>
      if x.time_seconds < best.time_seconds then x else best) r)

/-- Pace cell of a personal best: `_format_pace(p) if p else "N/A"` — a `NaN`
cell is truthy in Python (and `_format_pace` then yields "N/A"), a zero pace
is falsy. -/
def pbPace : Option ℚ → String
  | none => formatPaceOpt none
  | some q => if q ≠ 0 then formatPaceOpt (some q) else "N/A"

/-- `personal_bests`: selects `df[df["distance_m"] == dist]` for each
benchmark distance, which raises `KeyError` when the frame has no columns
(the frame built from an empty record list); distances with no exact match
are absent from the result. -/
def personal_bests (df : DataFrame) : Except String (List (String × PBEntry)) :=
  if !df.hasCols then .error "KeyError: distance_m"
  else
    .ok (standard_distances.foldr (fun dist acc =>
      match minTimeRow (df.rows.filter (fun r => r.distance_m = dist)) with
      | none => acc
      | some best =>
          (toString dist ++ "m",
            { time := formatTimeQ best.time_seconds,
              pace := pbPace best.pace_500m,
              date := formatDay best.date.day }) :: acc) [])

/-- Heatmap output: `{}` on an empty frame, otherwise the week×weekday
matrix, the ordered week labels, the present weekday column names, and the
rendering height. -/
inductive HeatmapResult where
  | empty
  | matrix (z_values : List (List Int)) (weeks : List String) (days : List String)
      (height : Nat)
deriving DecidableEq, Repr

/-- Weekday column names (`day_names` in the source); `rename` only touches
columns actually present in the pivot. -/
def dayName : Nat → String
  | 1 => "Mon" | 2 => "Tue" | 3 => "Wed" | 4 => "Thu" | 5 => "Fri" | 6 => "Sat"
  | 7 => "Sun" | _ => "?"

/-- Smallest element of a non-empty list of day numbers (`.min()`). -/
def daysMin : List Nat → Nat
  | [] => 0
  | d :: ds => ds.foldl Nat.min d

/-- Largest element of a non-empty list of day numbers (`.max()`). -/
def daysMax : List Nat → Nat
  | [] => 0
  | d :: ds => ds.foldl Nat.max d

/-- Stage 1 of `training_heatmap_data`: total distance per calendar day,
grouped on the distinct days sorted ascending (`groupby("day").agg(sum)`). -/
def heatmapDailyAgg (rows : List DfRow) : List (Nat × Int) :=
  ((dedupFirst (rows.map (fun r => r.date.day))).insertionSort (· ≤ ·)).map
    (fun d =>
      (d, (rows.filterMap (fun r =>
            if r.date.day = d then some r.distance_m else none)).sum))

/-- Stage 2 of `training_heatmap_data`: re-index on the dense daily range
from the first to the last present day, filling rest days with 0
(`date_range` + `reindex` + `fillna(0)`). -/
def heatmapDense (dailyAgg : List (Nat × Int)) : List (Nat × Int) :=
  ((List.range (daysMax (dailyAgg.map (fun p => p.1)) + 1 -
      daysMin (dailyAgg.map (fun p => p.1)))).map
    (fun i => daysMin (dailyAgg.map (fun p => p.1)) + i)).map
    (fun d => (d, (dailyAgg.lookup d).getD 0))

/-- Stage 3 of `training_heatmap_data`: the `pivot_table` call.  Row index =
distinct week labels present, columns = distinct weekdays present, both
sorted ascending; each cell sums the matching days, `fill_value=0` for
absent combinations; `rename` maps the present weekday numbers to names. -/
def heatmapMatrix (dailyFull : List (Nat × Int)) : HeatmapResult :=
  let weekLabels := (dedupFirst (dailyFull.map (fun p => isoWeekLabel p.1))).insertionSort strLeP
  let weekdayCols := (dedupFirst (dailyFull.map (fun p => isoWeekday p.1))).insertionSort (· ≤ ·)
  .matrix
    (weekLabels.map (fun wl => weekdayCols.map (fun wd =>
      (dailyFull.filterMap (fun p =>
        if isoWeekLabel p.1 = wl ∧ isoWeekday p.1 = wd then some p.2 else none)).sum)))
    weekLabels (weekdayCols.map dayName) (Nat.max 300 (weekLabels.length * 22))

/-- `training_heatmap_data`: aggregate distance per calendar day, build the
dense daily series from the first to the last record day (rest days filled
with 0), then pivot into a week-label × weekday matrix. -/
def training_heatmap_data (df : DataFrame) : Except String HeatmapResult :=
  if df.rows.isEmpty then .ok .empty
  else if !df.hasCols then .error "KeyError: date"
  else .ok (heatmapMatrix (heatmapDense (heatmapDailyAgg df.rows)))

/-- Regression output: `{}` when the frame is empty or no row has a defined
pace; otherwise the regression inputs — the days-since-first series and the
pace series of the pace-bearing rows in date order.  The numpy least-squares
fits (degree 1 and 3), R², and rolling mean are float computations performed
on exactly these two series; the embedding records the series and abstracts
the fitted numbers. -/
inductive RegressionResult where
  | empty
  | computed (days_since_start : List Nat) (paces : List ℚ)
deriving DecidableEq, Repr

/-- `pace_trend_regression` (guards and data preparation). -/
def pace_trend_regression (df : DataFrame) : Except String RegressionResult :=
  if df.rows.isEmpty then .ok .empty
  else if !df.hasCols then .error "KeyError: pace_500m"
  else if !(df.rows.any (fun r => r.pace_500m.isSome)) then .ok .empty
  else
    let pace_rows := (df.rows.filter (fun r => r.pace_500m.isSome)).insertionSort dfDateLe
    let first := minDate pace_rows
    .ok (.computed
      (pace_rows.map (fun r =>
        ((r.date.day * 86400 + r.date.sec) - (first.day * 86400 + first.sec)) / 86400))
      (pace_rows.map (fun r => r.pace_500m.getD 0)))

/-- Clustering output: `{}` when fewer usable rows than the requested cluster
count; otherwise the standardised k-means fit runs on the feature rows.  The
seeded floating-point k-means itself is abstracted: the embedding records the
feature rows (distance, pace, duration) and the effective cluster count. -/
inductive ClusterResult where
  | empty
  | computed (features : List (Int × ℚ × ℚ)) (n_clusters : Nat)
deriving DecidableEq, Repr

/-- `workout_clustering` (column selection, dropna and guards).  Selecting
`df[["distance_m", "pace_500m", "time_seconds"]]` raises `KeyError` when the
frame has no columns; `dropna` removes rows whose pace is `NaN` (the other
two features are never `NaN`). -/
def workout_clustering (df : DataFrame) (n_clusters : Nat := 4) :
    Except String ClusterResult :=
  if !df.hasCols then .error "KeyError: distance_m"
  else
    let cluster_rows := df.rows.filter (fun r => r.pace_500m.isSome)
    if cluster_rows.length < n_clusters then .ok .empty
    else
      .ok (.computed
        (cluster_rows.map (fun r => (r.distance_m, r.pace_500m.getD 0, r.time_seconds)))
        (Nat.min n_clusters cluster_rows.length))

/-! ## Sample data for witnesses -/

/-- A concrete valid record: 2000 m in 480.0 s. -/
def sampleWorkout : WorkoutResult :=
  { id := 11, user_id := 7, date := "2024-01-01 07:00:00", distance := 2000,
    type := "rower", time := 4800 }

/-- A concrete record with distance 0. -/
def zeroDistanceWorkout : WorkoutResult :=
  { id := 12, user_id := 7, date := "2024-01-02 07:00:00", distance := 0,
    type := "rower", time := 600 }

/-- A concrete workout dated 2024-03-05. -/
def marchWorkout : WorkoutResult :=
  { id := 31, user_id := 7, date := "2024-03-05 06:30:00", distance := 5000,
    type := "rower", time := 12000 }

/-- A concrete stale store: one workout row dated 2024-03-05, last sync 25 h
before the probe time. -/
def staleStore : Store :=
  { workouts := [workoutToRow marchWorkout], sync_meta := some ⟨0, 1⟩ }

/-- The sample workout re-fetched with edited field values (same id). -/
def sampleWorkoutEdited : WorkoutResult :=
  { sampleWorkout with distance := 2100, time := 5000 }

/-- Records standing in for the payloads of two server pages. -/
def wPage1 : WorkoutResult :=
  { id := 101, user_id := 7, date := "2024-04-01 07:00:00", distance := 2000,
    type := "rower", time := 4500 }

/-- Second page payload. -/
def wPage2 : WorkoutResult :=
  { id := 102, user_id := 7, date := "2024-04-02 07:00:00", distance := 6000,
    type := "rower", time := 15000 }

/-- A server with an inconsistent pagination report: the response to page 1
reports `current_page = 2 = total_pages`; the response to page 2 carries no
metadata. -/
def inconsistentServer : Nat → ResultsResponse := fun p =>
  if p = 1 then { data := [wPage1], meta := some ⟨⟨2, 1, 250, 2, 2⟩⟩ }
  else { data := [wPage2], meta := none }

/-- A well-behaved two-page server (consistent pagination). -/
def twoPageServer : Nat → ResultsResponse := fun p =>
  if p = 1 then { data := [wPage1], meta := some ⟨⟨2, 1, 250, 1, 2⟩⟩ }
  else if p = 2 then { data := [wPage2], meta := some ⟨⟨2, 1, 250, 2, 2⟩⟩ }
  else { data := [], meta := none }

/-- An attempt source that always fails with HTTP 401 (auth failure — a 4xx,
which the spec calls non-retryable). -/
def auth401 (_ : Nat) : Except HttpFailure ResultsResponse := .error (.status 401)

/-- Decidable equality of `Except` values (both components decidable). -/
instance exceptDecEq {e a : Type} [DecidableEq e] [DecidableEq a] :
    DecidableEq (Except e a) := fun x y =>
  match x, y with
  | .ok v, .ok w =>
      if h : v = w then .isTrue (by rw [h]) else .isFalse (by intro hc; cases hc; exact h rfl)
  | .error v, .error w =>
      if h : v = w then .isTrue (by rw [h]) else .isFalse (by intro hc; cases hc; exact h rfl)
  | .ok _, .error _ => .isFalse (by intro hc; cases hc)
  | .error _, .ok _ => .isFalse (by intro hc; cases hc)

/-- A single workout on Monday 2024-01-01 (ISO week 2024-W01), 5000 m. -/
def mondayWorkout : WorkoutResult :=
  { id := 41, user_id := 7, date := "2024-01-01 07:00:00", distance := 5000,
    type := "rower", time := 12000 }

/-- The view of a record that survives a store roundtrip: heart-rate
`recovery` and `rest` have no column and are dropped, and a heart-rate block
whose four stored fields are all `None` is indistinguishable from no block at
load time. -/
def persistedView (r : WorkoutResult) : WorkoutResult :=
  { r with heart_rate :=
      match r.heart_rate with
      | none => none
      | some h =>
          if h.average = none ∧ h.min = none ∧ h.max = none ∧ h.ending = none
          then none
          else some { average := h.average, min := h.min, max := h.max,
                      ending := h.ending } }

/-- A record with a full heart-rate block (recovery and rest present). -/
def hrWorkout : WorkoutResult :=
  { id := 21, user_id := 7, date := "2024-02-01 08:00:00", distance := 3000,
    type := "rower", time := 7000, verified := some true,
    heart_rate := some { average := some 150, min := some 100, max := some 180,
                         ending := some 160, recovery := some 120, rest := some 60 } }

/-- A record whose heart-rate block has no stored field present. -/
def emptyHrWorkout : WorkoutResult :=
  { id := 22, user_id := 7, date := "2024-02-02 08:00:00", distance := 1000,
    type := "rower", time := 2500, ranked := some false,
    heart_rate := some {} }

/-- The two-record batch used by the roundtrip witness. -/
def rs₀ : List WorkoutResult := [hrWorkout, emptyHrWorkout]

/-! ## Claim theorems -/

theorem charListLe_refl (l : List Char) : charListLe l l = true := by
  induction l with
  | nil => rfl
  | cons a as ih => simp [charListLe, ih]

theorem strLe_refl (s : String) : strLe s s = true := charListLe_refl s.toList
/-- C9: for every record, `pace_per_500m` equals elapsed seconds (time/10)
divided by distance and multiplied by 500 when the distance is positive, and
is absent (`None`) when the distance is 0 — the division is only ever formed
under the positivity guard. -/
theorem pace_per_500m_spec (r : WorkoutResult) :
    (0 < r.distance →
      r.pace_per_500m = some ((r.time : ℚ) / 10 / (r.distance : ℚ) * 500)) ∧
    (r.distance = 0 → r.pace_per_500m = none) := by
  constructor
  · intro h
    rw [WorkoutResult.pace_per_500m, if_pos ⟨h.ne', h⟩, WorkoutResult.time_seconds]
  · intro h
    rw [WorkoutResult.pace_per_500m, if_neg (by simp [h])]

/-- Witness for C9 at two concrete records: 4800 tenths over 2000 m gives a
120.0 s pace, and a 0 m record has no pace. -/
theorem pace_per_500m_spec_witness :
    sampleWorkout.pace_per_500m = some 120 ∧
    zeroDistanceWorkout.pace_per_500m = none := by
  constructor
  · have h := (pace_per_500m_spec sampleWorkout).1 (by decide)
    rw [h]
    norm_num [sampleWorkout]
  · exact (pace_per_500m_spec zeroDistanceWorkout).2 rfl

/-- C6: `needs_sync` is true iff no prior sync exists or `now - last_sync`
is at least `SYNC_INTERVAL` (24 h); in particular at exactly 24 h elapsed it
is true (the boundary is ≥). -/
theorem needs_sync_iff (now : Int) (st : Store) :
    (needs_sync now st = true ↔
      st.sync_meta = none ∨
        ∃ m, st.sync_meta = some m ∧ SYNC_INTERVAL ≤ now - m.last_sync_utc) ∧
    (∀ m, st.sync_meta = some m → now - m.last_sync_utc = SYNC_INTERVAL →
      needs_sync now st = true) := by
  constructor
  · unfold needs_sync get_last_sync
    cases h : st.sync_meta with
    | none => simp
    | some m => simp [h]
  · intro m hm hb
    unfold needs_sync get_last_sync
    rw [hm]
    simpa using le_of_eq hb.symm

/-- Witness for C6: boundary case — last sync exactly 24 h ago — and fresh
case 1 second short of 24 h. -/
theorem needs_sync_iff_witness :
    needs_sync 86400 { workouts := [], sync_meta := some ⟨0, 0⟩ } = true ∧
    ¬(needs_sync 86399 { workouts := [], sync_meta := some ⟨0, 0⟩ } = true) := by
  constructor
  · exact (needs_sync_iff 86400 { workouts := [], sync_meta := some ⟨0, 0⟩ }).2
      ⟨0, 0⟩ rfl (by decide)
  · decide

/-- C7: when a sync runs on the STALE path (store non-empty, sync due), the
fetch request's `from_date` is exactly the pre-sync
`get_latest_workout_date()`, and that date itself satisfies the inclusive
`from` filter — the latest known day is re-requested. -/
theorem stale_sync_refetch_inclusive (st : Store) (now : Int) (d : String)
    (_hsync : needs_sync now st = true)
    (hlatest : get_latest_workout_date st = some d) :
    (syncFetchRequest st).from_date = some d ∧
    fromFilterAdmits (syncFetchRequest st) d = true := by
  unfold syncFetchRequest
  rw [hlatest]
  exact ⟨rfl, by simp [fromFilterAdmits, strLe_refl]⟩

/-- Witness for C7 at `staleStore`: the refetch starts at (and admits)
2024-03-05. -/
theorem stale_sync_refetch_inclusive_witness :
    (syncFetchRequest staleStore).from_date = some "2024-03-05" ∧
    fromFilterAdmits (syncFetchRequest staleStore) "2024-03-05" = true :=
  stale_sync_refetch_inclusive staleStore 90000 "2024-03-05" (by decide) (by decide)

/-- C5: upserting a record whose id already exists overwrites in place and
never duplicates — after upserting the same id twice with different field
values, exactly one row with that id remains and it holds the second
record's values. -/
theorem upsert_same_id_overwrites (t : List WorkoutRow) (r1 r2 : WorkoutResult)
    (hid : r1.id = r2.id) (_hne : r1 ≠ r2) :
    (upsert_workouts (upsert_workouts t [r1]).1 [r2]).1.filter
        (fun row => row.id = r2.id) = [workoutToRow r2] ∧
    (upsert_workouts (upsert_workouts t [r1]).1 [r2]).1.countP
        (fun row => row.id = r2.id) = 1 := by
  have hrid : (workoutToRow r1).id = (workoutToRow r2).id := hid
  have hq : (workoutToRow r2).id = r2.id := rfl
  have step : (upsert_workouts (upsert_workouts t [r1]).1 [r2]).1 =
      ((t.filter (fun r => r.id ≠ (workoutToRow r1).id)).filter
        (fun r => r.id ≠ (workoutToRow r2).id)) ++ [workoutToRow r2] := by
    show (((t.filter (fun r => r.id ≠ (workoutToRow r1).id)) ++
        [workoutToRow r1]).filter (fun r => r.id ≠ (workoutToRow r2).id)) ++
        [workoutToRow r2] = _
    rw [List.filter_append]
    have hdrop : [workoutToRow r1].filter
        (fun r => r.id ≠ (workoutToRow r2).id) = [] := by
      simp [List.filter, hrid]
    rw [hdrop, List.append_nil]
  have ha : (upsert_workouts (upsert_workouts t [r1]).1 [r2]).1.filter
      (fun row => row.id = r2.id) = [workoutToRow r2] := by
    rw [step, List.filter_append]
    have hleft : ((t.filter (fun r => r.id ≠ (workoutToRow r1).id)).filter
        (fun r => r.id ≠ (workoutToRow r2).id)).filter
          (fun row => row.id = r2.id) = [] := by
      apply List.filter_eq_nil_iff.mpr
      intro a ha
      have h2 : decide (a.id ≠ (workoutToRow r2).id) = true :=
        (List.mem_filter.mp ha).2
      simp only [decide_eq_true_eq] at h2 ⊢
      exact fun hc => h2 hc
    rw [hleft, List.nil_append]
    simp [List.filter, hq]
  refine ⟨ha, ?_⟩
  rw [List.countP_eq_length_filter, ha]
  rfl

/-- Witness for C5: upserting id 11 twice into an empty table leaves exactly
the second version. -/
theorem upsert_same_id_overwrites_witness :
    (upsert_workouts (upsert_workouts [] [sampleWorkout]).1 [sampleWorkoutEdited]).1.filter
        (fun row => row.id = sampleWorkoutEdited.id) = [workoutToRow sampleWorkoutEdited] ∧
    (upsert_workouts (upsert_workouts [] [sampleWorkout]).1 [sampleWorkoutEdited]).1.countP
        (fun row => row.id = sampleWorkoutEdited.id) = 1 :=
  upsert_same_id_overwrites [] sampleWorkout sampleWorkoutEdited rfl (by decide)

/-- C1: one sync cycle is all-or-nothing for the store.  Whatever the fetch
outcome and wherever a store write failure strikes, an erroring cycle leaves
the `workouts` table and the `sync_meta` row exactly as they were before the
cycle; a successful due cycle applies both the upsert and the meta update. -/
theorem sync_cycle_atomic (st : Store) (now : Int)
    (fetchResult : Except String (List WorkoutResult))
    (writeFailAt : Option (Fin 3)) :
    (∀ e, (sync_workouts st now fetchResult writeFailAt).2 = .error e →
      (sync_workouts st now fetchResult writeFailAt).1 = st) ∧
    (∀ results, fetchResult = .ok results → writeFailAt = none →
      needs_sync now st = true →
      (sync_workouts st now fetchResult writeFailAt).1 =
        { workouts := (upsert_workouts st.workouts results).1,
          sync_meta := some ⟨now, (upsert_workouts st.workouts results).1.length⟩ }) := by
  constructor
  · intro e herr
    unfold sync_workouts at herr ⊢
    by_cases hns : needs_sync now st = false
    · simp [hns] at herr
    · rw [if_neg hns] at herr ⊢
      cases fetchResult with
      | error msg => rfl
      | ok results =>
          cases writeFailAt with
          | none => simp at herr
          | some k =>
              show runOps st st (syncOps results now) (some k.val) = st
              rcases k with ⟨kv, hk⟩
              interval_cases kv <;> rfl
  · intro results hfetch hw hns
    subst hfetch
    subst hw
    unfold sync_workouts
    rw [if_neg (by simp [hns])]
    show runOps st st (syncOps results now) none = _
    rfl

/-- Witness for C1 at `staleStore`: a write failure right after the upsert
statement leaves the store untouched, and the failure-free cycle applies the
upsert and the meta update together. -/
theorem sync_cycle_atomic_witness :
    (sync_workouts staleStore 90000 (.ok [sampleWorkout]) (some 1)).1 = staleStore ∧
    (sync_workouts staleStore 90000 (.ok [sampleWorkout]) none).1 =
      { workouts := (upsert_workouts staleStore.workouts [sampleWorkout]).1,
        sync_meta := some ⟨90000,
          (upsert_workouts staleStore.workouts [sampleWorkout]).1.length⟩ } :=
  ⟨(sync_cycle_atomic staleStore 90000 (.ok [sampleWorkout]) (some 1)).1
      "StoreWriteError" rfl,
   (sync_cycle_atomic staleStore 90000 (.ok [sampleWorkout]) none).2
      [sampleWorkout] rfl rfl (by decide)⟩

/-! ## Pagination claims (C3) -/

theorem get_all_results_shape (server : Nat → ResultsResponse) :
    ∀ fuel page l, get_all_results server page fuel = some l →
      ∃ k, page ≤ k ∧ stopsAt server k = true ∧
        (∀ q, page ≤ q → q < k → stopsAt server q = false) ∧
        l = ((List.range' page (k + 1 - page)).map (fun p => (server p).data)).flatten := by
  intro fuel
  induction fuel with
  | zero =>
      intro page l h
      exact absurd h (by simp [get_all_results])
  | succ n ih =>
      intro page l h
      unfold get_all_results at h
      cases hm : (server page).meta with
      | none =>
          rw [hm] at h
          dsimp only at h
          refine ⟨page, le_refl page, by simp [stopsAt, hm], fun q h1 h2 => absurd h1 (by omega), ?_⟩
          simp only [Option.some.injEq] at h
          simp [← h, Nat.succ_sub_one, List.range'_one]
      | some m =>
          rw [hm] at h
          dsimp only at h
          by_cases hlt : page < m.pagination.total_pages
          · rw [if_pos hlt] at h
            rcases Option.map_eq_some'.mp h with ⟨l', hrec, hl⟩
            rcases ih (page + 1) l' hrec with ⟨k, hk1, hk2, hk3, hk4⟩
            refine ⟨k, by omega, hk2, ?_, ?_⟩
            · intro q h1 h2
              by_cases hq : q = page
              · subst hq; simp [stopsAt, hm, hlt]
              · exact hk3 q (by omega) h2
            · rw [← hl, hk4]
              have hsplit : k + 1 - page = (k - page) + 1 := by omega
              have hsplit2 : k + 1 - (page + 1) = k - page := by omega
              rw [hsplit, hsplit2, List.range'_succ, List.map_cons, List.flatten_cons]
          · rw [if_neg hlt] at h
            refine ⟨page, le_refl page, by simp [stopsAt, hm, hlt],
              fun q h1 h2 => absurd h1 (by omega), ?_⟩
            simp only [Option.some.injEq] at h
            simp [← h, Nat.succ_sub_one, List.range'_one]

theorem get_all_results_terminates (server : Nat → ResultsResponse) :
    ∀ fuel page, (∃ k, page ≤ k ∧ k < page + fuel ∧ stopsAt server k = true) →
      ∃ l, get_all_results server page fuel = some l := by
  intro fuel
  induction fuel with
  | zero =>
      intro page h
      rcases h with ⟨k, h1, h2, -⟩
      omega
  | succ n ih =>
      intro page h
      rcases h with ⟨k, h1, h2, h3⟩
      unfold get_all_results
      cases hm : (server page).meta with
      | none => exact ⟨(server page).data, rfl⟩
      | some m =>
          dsimp only
          by_cases hlt : page < m.pagination.total_pages
          · rw [if_pos hlt]
            have hkp : page ≠ k := by
              intro heq
              rw [← heq] at h3
              simp [stopsAt, hm, hlt] at h3
            rcases ih (page + 1) ⟨k, by omega, by omega, h3⟩ with ⟨l', hl'⟩
            exact ⟨(server page).data ++ l', by rw [hl']; rfl⟩
          · rw [if_neg hlt]
            exact ⟨(server page).data, rfl⟩

/-- C3 (amended): `get_all_results` stops exactly when the response's
pagination metadata is absent or the local page counter has reached the
reported `total_pages` (it never consults the reported `current_page`), and
returns the pages' records concatenated in increasing requested-page order.
It terminates whenever the reported `total_pages` values are bounded by some
`N` (fuel `N + 1` suffices); an unbounded sequence of reports can drive the
loop forever. -/
theorem get_all_results_drains_pages (server : Nat → ResultsResponse) (N : Nat)
    (hbound : ∀ p m, (server p).meta = some m → m.pagination.total_pages ≤ N) :
    ∃ k l, get_all_results server 1 (N + 1) = some l ∧ 1 ≤ k ∧
      stopsAt server k = true ∧
      (∀ q, 1 ≤ q → q < k → stopsAt server q = false) ∧
      l = ((List.range' 1 k).map (fun p => (server p).data)).flatten := by
  have hmaxl : 1 ≤ Nat.max 1 N := Nat.le_max_left 1 N
  have hmaxr : N ≤ Nat.max 1 N := Nat.le_max_right 1 N
  have hmaxu : Nat.max 1 N ≤ 1 + N := Nat.max_le.mpr ⟨by omega, by omega⟩
  have hstop : stopsAt server (Nat.max 1 N) = true := by
    unfold stopsAt
    cases hm : (server (Nat.max 1 N)).meta with
    | none => rfl
    | some m =>
        have := hbound _ _ hm
        simp only [Bool.not_eq_true']
        simp only [decide_eq_false_iff_not]
        omega
  rcases get_all_results_terminates server (N + 1) 1
      ⟨Nat.max 1 N, by omega, by omega, hstop⟩ with ⟨l, hl⟩
  rcases get_all_results_shape server (N + 1) 1 l hl with ⟨k, hk1, hk2, hk3, hk4⟩
  exact ⟨k, l, hl, hk1, hk2, hk3, by simpa using hk4⟩

/-- Counterexample for C3 as stated: on `inconsistentServer`, page 1's
response already reports `current_page = total_pages`, so the claimed stop
rule would stop after page 1 with `[wPage1]` (computed here by the
spec-worded drain `get_all_results_specStop`); the code instead compares its
LOCAL page counter (1 < 2), fetches page 2 as well, and returns
`[wPage1, wPage2]`. -/
theorem get_all_results_stop_rule_counterexample :
    get_all_results inconsistentServer 1 10 = some [wPage1, wPage2] ∧
    get_all_results_specStop inconsistentServer 1 10 = some [wPage1] ∧
    ((inconsistentServer 1).meta.map
      (fun m => decide (m.pagination.current_page = m.pagination.total_pages))) =
      some true ∧
    get_all_results inconsistentServer 1 10 ≠
      get_all_results_specStop inconsistentServer 1 10 := by
  refine ⟨?_, ?_, ?_, ?_⟩ <;> decide

/-- Witness for C3 (amended) on the consistent two-page server with bound
`N = 2`: the drain stops at page 2 and returns both pages in order. -/
theorem get_all_results_drains_pages_witness :
    ∃ k l, get_all_results twoPageServer 1 3 = some l ∧ 1 ≤ k ∧
      stopsAt twoPageServer k = true ∧
      (∀ q, 1 ≤ q → q < k → stopsAt twoPageServer q = false) ∧
      l = ((List.range' 1 k).map (fun p => (twoPageServer p).data)).flatten :=
  get_all_results_drains_pages twoPageServer 2 (by
    intro p m hm
    by_cases h1 : p = 1
    · subst h1
      simp only [twoPageServer, if_pos rfl] at hm
      cases hm
      decide
    · by_cases h2 : p = 2
      · subst h2
        simp only [twoPageServer] at hm
        norm_num at hm
        cases hm
        decide
      · simp only [twoPageServer, if_neg h1, if_neg h2] at hm
        cases hm)

/-! ## Retry claims (C4) -/

/-- C4 (amended): each page request makes at most 3 attempts with
exponential backoff starting at 1 time unit, doubling up to a ceiling of 10
(`max(1, min(2^(n-1), 10))` after the `n`-th failure, so waits of 1 then 2);
a success returns immediately, but a FAILED attempt — of any kind, 4xx
responses included, since the decorator sets no retry predicate — is always
retried until the attempt budget is spent; the third attempt's outcome
propagates as is. -/
theorem get_results_retry_policy (attempts : Nat → Except HttpFailure ResultsResponse) :
    attemptsMade (get_results_retry attempts) ≤ 3 ∧
    (∀ v, attempts 1 = .ok v → get_results_retry attempts = (.ok v, [])) ∧
    (∀ e1, attempts 1 = .error e1 →
      (∀ v, attempts 2 = .ok v → get_results_retry attempts = (.ok v, [1])) ∧
      (∀ e2, attempts 2 = .error e2 →
        get_results_retry attempts = (attempts 3, [1, 2]))) := by
  refine ⟨?_, ?_, ?_⟩
  · unfold attemptsMade get_results_retry retryRun
    cases h1 : attempts 1 with
    | ok v => simp
    | error e =>
        cases h2 : attempts 2 with
        | ok v => simp [retryRun, h2]
        | error e2 => simp [retryRun, h2]
  · intro v hv
    unfold get_results_retry retryRun
    rw [hv]
  · intro e1 h1
    constructor
    · intro v h2
      unfold get_results_retry retryRun
      rw [h1]
      simp only [retryRun]
      rw [h2]
      rfl
    · intro e2 h2
      unfold get_results_retry retryRun
      rw [h1]
      simp only [retryRun]
      rw [h2]
      rfl

/-- Counterexample for C4 as stated: on permanent 401 failures the code
performs 3 attempts (with backoff waits 1 then 2), while the spec-worded
policy (`retryRunSpec`: retry only transient failures) stops after a single
attempt with no wait.  So a 401 IS retried and does not propagate
immediately. -/
theorem get_results_retry_counterexample :
    attemptsMade (get_results_retry auth401) = 3 ∧
    (get_results_retry auth401).2 = [1, 2] ∧
    attemptsMade (retryRunSpec auth401 1 2) = 1 ∧
    (retryRunSpec auth401 1 2).2 = [] ∧
    isTransient (.status 401) = false := by
  refine ⟨?_, ?_, ?_, ?_, ?_⟩ <;> decide

/-- Witness for C4 (amended) on the permanent-401 source: the retry wrapper
returns the 401 after waits of 1 and 2. -/
theorem get_results_retry_policy_witness :
    get_results_retry auth401 = (.error (.status 401), [1, 2]) :=
  ((get_results_retry_policy auth401).2.2 (.status 401) rfl).2 (.status 401) rfl

/-! ## Analytics claims (C2, C8) -/

/-- C2: behaviour of the analytics pipeline on the DataFrame built from an
empty record list.  The `df.empty`-guarded functions return their empty
sentinels, but `pd.DataFrame([])` has NO columns, so `personal_bests` and
`workout_clustering` — which select columns before any emptiness guard —
raise `KeyError` instead of returning their empty results. -/
theorem analytics_empty_record_set :
    compute_summary ⟨20000, 0⟩ (results_to_dataframe []) = .empty ∧
    monthly_volume (results_to_dataframe []) = .ok [] ∧
    weekly_volume (results_to_dataframe []) = .ok [] ∧
    training_heatmap_data (results_to_dataframe []) = .ok .empty ∧
    pace_trend_regression (results_to_dataframe []) = .ok .empty ∧
    personal_bests (results_to_dataframe []) = .error "KeyError: distance_m" ∧
    workout_clustering (results_to_dataframe []) 4 = .error "KeyError: distance_m" := by
  refine ⟨?_, ?_, ?_, ?_, ?_, ?_, ?_⟩ <;> rfl


/-- `date_parsed` only reads the record's date string. -/
theorem date_parsed_congr (r s : WorkoutResult) (h : r.date = s.date) :
    r.date_parsed = s.date_parsed := by
  unfold WorkoutResult.date_parsed
  rw [h]


/-- `filterMap` of a one-element list whose image is present. -/
theorem filterMap_singleton_some {α β : Type} (f : α → Option β) (a : α) (b : β)
    (h : f a = some b) : List.filterMap f [a] = [b] := by
  rw [List.filterMap_cons, h, List.filterMap_nil]

/-- Day-aggregation stage on a one-row frame. -/
theorem heatmapDailyAgg_singleton (row : DfRow) :
    heatmapDailyAgg [row] = [(row.date.day, row.distance_m)] := by
  show [((row.date.day : Nat),
      (List.filterMap (fun r : DfRow =>
        if r.date.day = row.date.day then some r.distance_m else none) [row]).sum)] =
    [(row.date.day, row.distance_m)]
  rw [filterMap_singleton_some (fun r : DfRow =>
      if r.date.day = row.date.day then some r.distance_m else none) row
      row.distance_m (if_pos rfl),
    List.sum_cons, List.sum_nil, Int.add_zero]

/-- Dense-reindex stage on a one-day aggregate. -/
theorem heatmapDense_singleton (d : Nat) (v : Int) :
    heatmapDense [(d, v)] = [(d, v)] := by
  unfold heatmapDense
  rw [show [((d : Nat), (v : Int))].map (fun p => p.1) = [d] from rfl]
  rw [show daysMax [d] = d from rfl, show daysMin [d] = d from rfl]
  rw [Nat.add_sub_cancel_left]
  rw [show List.range 1 = [0] from rfl]
  simp only [List.map_cons, List.map_nil, Nat.add_zero]
  rw [show (([(d, v)] : List (Nat × Int)).lookup d).getD 0 = v from by simp [List.lookup]]

/-- One pivot cell of a one-day dense series: the day matches its own week
label and weekday. -/
theorem heatmapCellA (d : Nat) (v : Int) :
    (if isoWeekLabel ((d, v) : Nat × Int).1 = isoWeekLabel d ∧
      isoWeekday ((d, v) : Nat × Int).1 = isoWeekday d
      then some ((d, v) : Nat × Int).2 else none) = some v := if_pos ⟨rfl, rfl⟩

/-- The matching cells of a one-day dense series. -/
theorem heatmapCell (d : Nat) (v : Int) :
    List.filterMap (fun p : Nat × Int =>
      if isoWeekLabel p.1 = isoWeekLabel d ∧ isoWeekday p.1 = isoWeekday d
      then some p.2 else none) [(d, v)] = [v] :=
  filterMap_singleton_some _ _ _ (heatmapCellA d v)

/-- Pivot stage on a one-day dense series. -/
theorem heatmapMatrix_singleton (d : Nat) (v : Int) :
    heatmapMatrix [(d, v)] =
      .matrix [[v]] [isoWeekLabel d] [dayName (isoWeekday d)] 300 := by
  show HeatmapResult.matrix
      [[(List.filterMap (fun p : Nat × Int =>
          if isoWeekLabel p.1 = isoWeekLabel d ∧ isoWeekday p.1 = isoWeekday d
          then some p.2 else none) [(d, v)]).sum]]
      [isoWeekLabel d] [dayName (isoWeekday d)] 300 =
    HeatmapResult.matrix [[v]] [isoWeekLabel d] [dayName (isoWeekday d)] 300
  rw [heatmapCell, List.sum_cons, List.sum_nil, Int.add_zero]

/-- Heatmap of a one-row frame: a single week row and a single weekday
column, holding that row's distance. -/
theorem heatmap_singleton (row : DfRow) :
    training_heatmap_data ⟨[row], true⟩ =
      .ok (.matrix [[row.distance_m]] [isoWeekLabel row.date.day]
        [dayName (isoWeekday row.date.day)] 300) := by
  show Except.ok (heatmapMatrix (heatmapDense (heatmapDailyAgg [row]))) = _
  rw [heatmapDailyAgg_singleton, heatmapDense_singleton, heatmapMatrix_singleton]

/-- Counterexample for C8 as stated: for the one-Monday-record input the
heatmap matrix has 1 row and only ONE column (the dense daily series spans a
single day, and the pivot's columns are only the weekdays present), not the
claimed 7 columns with zero-filled Tuesday–Sunday cells. -/
theorem heatmap_single_monday_counterexample :
    training_heatmap_data (results_to_dataframe [mondayWorkout]) =
      .ok (.matrix [[5000]] ["2024-W01"] ["Mon"] 300) ∧
    training_heatmap_data (results_to_dataframe [mondayWorkout]) ≠
      .ok (.matrix [[5000, 0, 0, 0, 0, 0, 0]] ["2024-W01"]
        ["Mon", "Tue", "Wed", "Thu", "Fri", "Sat", "Sun"] 300) := by
  have h1 : training_heatmap_data (results_to_dataframe [mondayWorkout]) =
      .ok (.matrix [[5000]] ["2024-W01"] ["Mon"] 300) := by rfl
  refine ⟨h1, ?_⟩
  rw [h1]
  intro hcontra
  have hlen := congrArg (fun x => match x with
    | Except.ok (HeatmapResult.matrix _ _ ds _) => ds.length
    | _ => 0) hcontra
  simp at hlen

/-- C8 (amended): for an input consisting of a single record of distance `D`
on Monday 2024-01-01, the heatmap output has one row and ONE column: the
single cell is the Monday cell and equals `D`, the row label is `2024-W01`,
the only weekday column is `Mon`, and the height floor 300 applies. -/
theorem heatmap_single_monday (D : Int) :
    training_heatmap_data (results_to_dataframe
      [{ mondayWorkout with distance := D }]) =
      .ok (.matrix [[D]] ["2024-W01"] ["Mon"] 300) := by
  have hdf : results_to_dataframe [{ mondayWorkout with distance := D }] =
      ⟨[toDfRow { mondayWorkout with distance := D }], true⟩ := rfl
  rw [hdf, heatmap_singleton]
  have hdate : (toDfRow { mondayWorkout with distance := D }).date =
      WorkoutResult.date_parsed mondayWorkout :=
    date_parsed_congr _ _ rfl
  have hday : (toDfRow { mondayWorkout with distance := D }).date.day = 19723 := by
    rw [hdate]
    rfl
  have hdist : (toDfRow { mondayWorkout with distance := D }).distance_m = D := rfl
  rw [hday, hdist]
  rw [show isoWeekLabel 19723 = "2024-W01" from by decide,
    show dayName (isoWeekday 19723) = "Mon" from by decide]

/-! ## Store roundtrip (C10) -/

/-- Decoding inverts the tri-state boolean encoding. -/
theorem decode_encode_triBool (v : Option Bool) :
    decodeTriBool (encodeTriBool v) = v := by
  rcases v with - | b
  · rfl
  · cases b <;> rfl

/-- A workout row loads back as the persisted view of its record. -/
theorem rowToWorkout_workoutToRow (r : WorkoutResult) :
    rowToWorkout (workoutToRow r) = persistedView r := by
  rcases r with ⟨i, u, dt, tz, du, di, ty, tm, tf, wt, sr, wc, ve, rk, cm, pv,
    str, stc, ct, dr, hr, rt, rd⟩
  rcases hr with - | ⟨a, mn, mx, en, rv, rs⟩
  · simp [rowToWorkout, workoutToRow, persistedView, decode_encode_triBool]
  · rcases a with - | a <;> rcases mn with - | mn <;> rcases mx with - | mx <;>
      rcases en with - | en <;>
      simp [rowToWorkout, workoutToRow, persistedView, decode_encode_triBool]

/-- Upserting records with pairwise distinct ids into a table disjoint from
them appends their rows in order. -/
theorem upsert_fold_nodup (rs : List WorkoutResult) :
    ∀ acc : List WorkoutRow,
      (∀ a ∈ acc, ∀ r ∈ rs, a.id ≠ r.id) →
      (rs.map (fun r => r.id)).Nodup →
      rs.foldl (fun t r => insertOrReplace t (workoutToRow r)) acc =
        acc ++ rs.map workoutToRow := by
  induction rs with
  | nil =>
      intro acc _ _
      simp
  | cons r rs ih =>
      intro acc hdisj hnd
      simp only [List.foldl_cons]
      have hkeep : insertOrReplace acc (workoutToRow r) = acc ++ [workoutToRow r] := by
        unfold insertOrReplace
        congr 1
        apply List.filter_eq_self.mpr
        intro a ha
        simpa using hdisj a ha r (by simp)
      rw [hkeep]
      have hnd' : (∀ x ∈ rs, ¬x.id = r.id) ∧ (rs.map (fun r => r.id)).Nodup := by
        simpa using hnd
      rw [ih (acc ++ [workoutToRow r]) ?_ hnd'.2]
      · simp
      · intro a ha r' hr'
        rcases List.mem_append.mp ha with h | h
        · exact hdisj a h r' (List.mem_cons_of_mem _ hr')
        · rcases List.mem_singleton.mp h with rfl
          show r.id ≠ r'.id
          intro hcontra
          exact hnd'.1 r' hr' hcontra.symm

/-- Upserting into the empty table stores exactly one row per record. -/
theorem upsert_empty_table (rs : List WorkoutResult)
    (hids : (rs.map (fun r => r.id)).Nodup) :
    (upsert_workouts [] rs).1 = rs.map workoutToRow := by
  cases rs with
  | nil => rfl
  | cons r rs =>
      unfold upsert_workouts
      rw [if_neg (by simp)]
      exact upsert_fold_nodup (r :: rs) [] (by simp) hids

/-- C10: upserting any list of records with distinct ids into a fresh store
and loading with no date filters returns, up to order, exactly the persisted
views of the originals: every field survives except a heart-rate block's
`recovery`/`rest` (loaded as `None`) and an all-`None` heart-rate block
(loaded as an absent block). -/
theorem upsert_load_roundtrip (rs : List WorkoutResult)
    (hids : (rs.map (fun r => r.id)).Nodup) :
    (load_workouts_as_models
        { workouts := (upsert_workouts [] rs).1, sync_meta := none }).Perm
      (rs.map persistedView) := by
  unfold load_workouts_as_models
  rw [upsert_empty_table rs hids]
  have hfilter : (rs.map workoutToRow).filter (rowInDateRange none none) =
      rs.map workoutToRow := by
    apply List.filter_eq_self.mpr
    intro a _
    rfl
  rw [hfilter]
  have hperm := (List.perm_insertionSort rowLoadLe (rs.map workoutToRow)).map rowToWorkout
  refine hperm.trans ?_
  rw [List.map_map]
  have hcomp : rowToWorkout ∘ workoutToRow = persistedView :=
    funext rowToWorkout_workoutToRow
  rw [hcomp]

/-- Witness for C10 on two concrete records: one loses only recovery/rest,
the other's empty heart-rate block collapses to `None`. -/
theorem upsert_load_roundtrip_witness :
    ((rs₀.map (fun r => r.id)).Nodup ∧
      (load_workouts_as_models
          { workouts := (upsert_workouts [] rs₀).1, sync_meta := none }).Perm
        (rs₀.map persistedView)) := by
  exact ⟨by decide, upsert_load_roundtrip rs₀ (by decide)⟩

end RowingApp
